import Mathlib

/-!
Shallow embedding of `qt3utils/experiments/pulsers/pulseblaster.py`.

Time values are modelled as exact rationals (seconds).  `np.round(x, n)`
is modelled by `npRound8`/`npRoundInt` (round half to even, as numpy does),
and Python's `int(...)` truncation by `pyInt`.  Driver (`pulseblaster.spinapi`)
calls are modelled by a `DriverStatus` record giving the status code each
driver call would return; a zero status is success.  Exceptions become an
explicit `Except`/pair-with-error result; because a raised Python exception
leaves the mutated object behind, `program_pulser_state` returns the final
object state alongside the `Except` outcome.
-/

namespace Qt3Utils

/-- numpy's round-half-to-even of a rational to an integer. -/
def npRoundInt (q : ℚ) : ℤ :=
  let f : ℚ := q - ⌊q⌋
  if f < 1/2 then ⌊q⌋
  else if 1/2 < f then ⌊q⌋ + 1
  else if ⌊q⌋ % 2 = 0 then ⌊q⌋ else ⌊q⌋ + 1

/-- `np.round(q, 8)`: round to 8 decimal places (half to even). -/
def npRound8 (q : ℚ) : ℚ := (npRoundInt (q * 10 ^ 8) : ℚ) / 10 ^ 8

/-- Python `int(...)` applied to a float/rational: truncation toward zero. -/
def pyInt (q : ℚ) : ℤ := if q < 0 then -⌊-q⌋ else ⌊q⌋

/-- The exceptions the module can raise.
`initError` is `PulseBlasterInitError`, `opError` is `PulseBlasterError`
(carrying the nonzero driver status), `pulseTrainWidthError` is
`PulseTrainWidthError` (the timing-validation error), and the two Python
runtime errors that the buggy paths hit. -/
inductive PBErr
  | initError (code : ℤ)
  | opError (code : ℤ)
  | pulseTrainWidthError
  | nameError (name : String)
  | unboundLocalError (name : String)
deriving DecidableEq, Repr

/-- Status codes the `pulseblaster.spinapi` driver returns to each call. -/
structure DriverStatus where
  initStatus : ℤ
  closeStatus : ℤ
  startProgStatus : ℤ
  stopProgStatus : ℤ
deriving DecidableEq, Repr

/-- The all-success driver environment. -/
def DriverStatus.allOk : DriverStatus := ⟨0, 0, 0, 0⟩

/-- Driver calls observable in a run of `open`/`close` (for the session-lifecycle
claims about call order). -/
inductive DriverCall
  | selectBoard (board : ℤ)
  | initCall
  | coreClock
  | closeCall
deriving DecidableEq, Repr

/-- `PulseBlaster.close`: `pb_close`, raising `PulseBlasterError` on nonzero
status.  Returns the trace of driver calls made together with the outcome. -/
def PulseBlaster.closeRun (d : DriverStatus) : List DriverCall × Except PBErr Unit :=
  ([.closeCall],
   if d.closeStatus ≠ 0 then .error (.opError d.closeStatus) else .ok ())

/-- `PulseBlaster.open`: select board, `pb_init`; on nonzero init status,
attempt `close()` (whose own failure raises) and only then raise
`PulseBlasterInitError`; on success fix the core clock. -/
def PulseBlaster.openRun (board : ℤ) (d : DriverStatus) :
    List DriverCall × Except PBErr Unit :=
  let pre : List DriverCall := [.selectBoard board, .initCall]
  if d.initStatus ≠ 0 then
    match PulseBlaster.closeRun d with
    | (tr, .error e) => (pre ++ tr, .error e)
    | (tr, .ok _) => (pre ++ tr, .error (.initError d.initStatus))
  else
    (pre ++ [.coreClock], .ok ())

/-- `PulseBlaster.start_programming` (status of `pb_start_programming(0)`). -/
def PulseBlaster.start_programming (d : DriverStatus) : Except PBErr Unit :=
  if d.startProgStatus ≠ 0 then .error (.opError d.startProgStatus) else .ok ()

/-- `PulseBlaster.stop_programming` (status of `pb_stop_programming()`). -/
def PulseBlaster.stop_programming (d : DriverStatus) : Except PBErr Unit :=
  if d.stopProgStatus ≠ 0 then .error (.opError d.stopProgStatus) else .ok ()

/-- Calls issued to the `PBInd` pulse-program builder (an external package);
recorded literally with the integer-nanosecond arguments the code passes. -/
inductive PBCall
  | mkPBInd (onTime : ℤ)
  | on (channel : ℕ) (start duration : ℤ)
  | makeClock (channel : ℕ) (period : ℤ)
  | programInf
deriving DecidableEq, Repr

/-! ### PulseBlasterHoldAOM -/

structure HoldAOMState where
  pb_board_number : ℤ
  aom_channel : ℕ
  cycle_width : ℚ
deriving DecidableEq, Repr

/-- `PulseBlasterHoldAOM.__init__` (defaults `1, 0, 10e-3`). -/
def HoldAOM.init (pb_board_number : ℤ := 1) (aom_channel : ℕ := 0)
    (cycle_width : ℚ := 10e-3) : HoldAOMState :=
  { pb_board_number := pb_board_number
    aom_channel := aom_channel
    cycle_width := npRound8 cycle_width }

/-- `PulseBlasterHoldAOM.program_pulser_state`.  After the programming bracket
completes and the board is closed, the return statement reads
`np.round(elf.cycle_width / self.clock_period).astype(int)`: `elf` is an
undefined name (and the class stores no `clock_period`), so the method raises
`NameError` instead of returning a count. -/
def HoldAOM.program_pulser_state (s : HoldAOMState) (d : DriverStatus) :
    HoldAOMState × Except PBErr (List PBCall × ℤ) :=
  match (PulseBlaster.openRun s.pb_board_number d).2 with
  | .error e => (s, .error e)
  | .ok _ =>
    -- builder calls issued here: `PBInd(pins, on_time=int(cycle_width*1e9))`,
    -- `pb.on(aom_channel, 0, int(cycle_width*1e9))`, `pb.program([], inf)`;
    -- they produce no value the return statement could use
    match PulseBlaster.start_programming d with
    | .error e => (s, .error e)
    | .ok _ =>
      match PulseBlaster.stop_programming d with
      | .error e => (s, .error e)
      | .ok _ =>
        match (PulseBlaster.closeRun d).2 with
        | .error e => (s, .error e)
        | .ok _ =>
          -- `return np.round(elf.cycle_width / self.clock_period).astype(int)`
          (s, .error (.nameError "elf"))

/-! ### PulseBlasterCWODMR -/

structure CWODMRState where
  pb_board_number : ℤ
  aom_channel : ℕ
  rf_channel : ℕ
  clock_channel : ℕ
  trigger_channel : ℕ
  rf_width : ℚ
  clock_period : ℚ
  trigger_width : ℚ
deriving DecidableEq, Repr

/-- `PulseBlasterCWODMR.__init__`. -/
def CWODMR.init (pb_board_number : ℤ := 1) (aom_channel : ℕ := 0)
    (rf_channel : ℕ := 1) (clock_channel : ℕ := 2) (trigger_channel : ℕ := 3)
    (rf_width : ℚ := 5e-6) (clock_period : ℚ := 200e-9)
    (trigger_width : ℚ := 500e-9) : CWODMRState :=
  { pb_board_number := pb_board_number
    aom_channel := aom_channel
    rf_channel := rf_channel
    clock_channel := clock_channel
    trigger_channel := trigger_channel
    rf_width := npRound8 rf_width
    clock_period := npRound8 clock_period
    trigger_width := npRound8 trigger_width }

/-- `PulseBlasterCWODMR.raise_for_pulse_width`: fail iff `rf_width < 50e-9`. -/
def CWODMR.raise_for_pulse_width (rf_width : ℚ) : Except PBErr Unit :=
  if rf_width < 50e-9 then .error .pulseTrainWidthError else .ok ()

/-- The core of `program_pulser_state` shared shape: run the
open / start-programming / builder-calls / stop-programming / close bracket,
returning the recorded builder calls and the integer the Python `return`
evaluates to. -/
def runProgramBracket (board : ℤ) (d : DriverStatus) (calls : List PBCall)
    (ret : ℤ) : Except PBErr (List PBCall × ℤ) :=
  match (PulseBlaster.openRun board d).2 with
  | .error e => .error e
  | .ok _ =>
    match PulseBlaster.start_programming d with
    | .error e => .error e
    | .ok _ =>
      match PulseBlaster.stop_programming d with
      | .error e => .error e
      | .ok _ =>
        match (PulseBlaster.closeRun d).2 with
        | .error e => .error e
        | .ok _ => .ok (calls, ret)

/-- `PulseBlasterCWODMR.program_pulser_state`.  The `rf_width` parameter
defaults to `None`; the code tests it with Python truthiness (`if rf_width:`)
so an explicit `0` falls into the no-override branch. -/
def CWODMR.program_pulser_state (s : CWODMRState) (d : DriverStatus)
    (rf_width : Option ℚ := none) :
    CWODMRState × Except PBErr (List PBCall × ℤ) :=
  let validated : Except PBErr CWODMRState :=
    match rf_width with
    | some w =>
      if w ≠ 0 then
        match CWODMR.raise_for_pulse_width w with
        | .error e => .error e
        | .ok _ => .ok { s with rf_width := npRound8 w }
      else
        match CWODMR.raise_for_pulse_width s.rf_width with
        | .error e => .error e
        | .ok _ => .ok s
    | none =>
      match CWODMR.raise_for_pulse_width s.rf_width with
      | .error e => .error e
      | .ok _ => .ok s
  match validated with
  | .error e => (s, .error e)
  | .ok s' =>
    let cycle_length := 2 * s'.rf_width
    let calls : List PBCall :=
      [.mkPBInd (pyInt (cycle_length * 1e9)),
       .on s'.trigger_channel 0 (pyInt (s'.trigger_width * 1e9)),
       .makeClock s'.clock_channel (pyInt (s'.clock_period * 1e9)),
       .on s'.aom_channel 0 (pyInt (cycle_length * 1e9)),
       .on s'.rf_channel 0 (pyInt (s'.rf_width * 1e9)),
       .programInf]
    (s', runProgramBracket s'.pb_board_number d calls
          (npRoundInt (cycle_length / s'.clock_period)))

/-! ### PulseBlasterPulsedODMR -/

/-- The four RF-pulse justification policies (`rf_pulse_justify`). -/
inductive Justify
  | left
  | center
  | right
  | start_center
deriving DecidableEq, Repr

structure PulsedODMRState where
  pb_board_number : ℤ
  aom_channel : ℕ
  rf_channel : ℕ
  clock_channel : ℕ
  trigger_channel : ℕ
  aom_width : ℚ
  rf_width : ℚ
  aom_response_time : ℚ
  rf_response_time : ℚ
  post_rf_pad : ℚ
  pre_rf_pad : ℚ
  full_cycle_width : ℚ
  rf_pulse_justify : Justify
  clock_period : ℚ
  trigger_width : ℚ
deriving DecidableEq, Repr

/-- `PulseBlasterPulsedODMR.__init__`. -/
def PulsedODMR.init (pb_board_number : ℤ := 1) (aom_channel : ℕ := 0)
    (rf_channel : ℕ := 1) (clock_channel : ℕ := 2) (trigger_channel : ℕ := 3)
    (clock_period : ℚ := 200e-9) (trigger_width : ℚ := 500e-9)
    (rf_width : ℚ := 5e-6) (aom_width : ℚ := 5e-6)
    (aom_response_time : ℚ := 800e-9) (rf_response_time : ℚ := 200e-9)
    (pre_rf_pad : ℚ := 100e-9) (post_rf_pad : ℚ := 100e-9)
    (full_cycle_width : ℚ := 30e-6) (rf_pulse_justify : Justify := .center) :
    PulsedODMRState :=
  { pb_board_number := pb_board_number
    aom_channel := aom_channel
    rf_channel := rf_channel
    clock_channel := clock_channel
    trigger_channel := trigger_channel
    aom_width := npRound8 aom_width
    rf_width := npRound8 rf_width
    aom_response_time := npRound8 aom_response_time
    rf_response_time := npRound8 rf_response_time
    post_rf_pad := npRound8 post_rf_pad
    pre_rf_pad := npRound8 pre_rf_pad
    full_cycle_width := npRound8 full_cycle_width
    rf_pulse_justify := rf_pulse_justify
    clock_period := npRound8 clock_period
    trigger_width := npRound8 trigger_width }

/-- `PulseBlasterPulsedODMR.raise_for_pulse_width`: the requested total width
must be strictly less than half the full cycle width; `>=` fails. -/
def PulsedODMR.raise_for_pulse_width (s : PulsedODMRState) (rf_width : ℚ) :
    Except PBErr Unit :=
  let requested_total_width :=
    s.aom_width + s.aom_response_time + s.pre_rf_pad + rf_width + s.post_rf_pad
  if requested_total_width ≥ s.full_cycle_width / 2 then
    .error .pulseTrainWidthError
  else .ok ()

/-- The RF-channel delay computed by the four justification policies. -/
def PulsedODMR.delay_rf_channel (s : PulsedODMRState) : ℚ :=
  let half_cycle_width := s.full_cycle_width / 2
  match s.rf_pulse_justify with
  | .center =>
    s.aom_width + (half_cycle_width - s.aom_width) / 2 - s.rf_width / 2
      - s.rf_response_time
  | .start_center =>
    s.aom_width + (half_cycle_width - s.aom_width) / 2 - s.rf_response_time
  | .left =>
    s.aom_width + s.aom_response_time + s.pre_rf_pad - s.rf_response_time
  | .right =>
    half_cycle_width - s.post_rf_pad - s.rf_width - s.rf_response_time
      + s.aom_response_time

/-- `PulseBlasterPulsedODMR.program_pulser_state`.  Same truthiness handling of
the optional `rf_width` as CW-ODMR; returns
`np.round(full_cycle_width / clock_period).astype(int)`. -/
def PulsedODMR.program_pulser_state (s : PulsedODMRState) (d : DriverStatus)
    (rf_width : Option ℚ := none) :
    PulsedODMRState × Except PBErr (List PBCall × ℤ) :=
  let validated : Except PBErr PulsedODMRState :=
    match rf_width with
    | some w =>
      if w ≠ 0 then
        match PulsedODMR.raise_for_pulse_width s w with
        | .error e => .error e
        | .ok _ => .ok { s with rf_width := npRound8 w }
      else
        match PulsedODMR.raise_for_pulse_width s s.rf_width with
        | .error e => .error e
        | .ok _ => .ok s
    | none =>
      match PulsedODMR.raise_for_pulse_width s s.rf_width with
      | .error e => .error e
      | .ok _ => .ok s
  match validated with
  | .error e => (s, .error e)
  | .ok s' =>
    let half_cycle_width := s'.full_cycle_width / 2
    let delay := PulsedODMR.delay_rf_channel s'
    let calls : List PBCall :=
      [.mkPBInd (pyInt (s'.full_cycle_width * 1e9)),
       .on s'.trigger_channel 0 (pyInt (s'.trigger_width * 1e9)),
       .makeClock s'.clock_channel (pyInt (s'.clock_period * 1e9)),
       .on s'.aom_channel 0 (pyInt (s'.aom_width * 1e9)),
       .on s'.rf_channel (pyInt (delay * 1e9)) (pyInt (s'.rf_width * 1e9)),
       .on s'.aom_channel (pyInt (half_cycle_width * 1e9))
         (pyInt (s'.aom_width * 1e9)),
       .programInf]
    (s', runProgramBracket s'.pb_board_number d calls
          (npRoundInt (s'.full_cycle_width / s'.clock_period)))

/-! ### PulseBlasterRamHahnDD -/

structure RamHahnDDState where
  pb_board_number : ℤ
  aom_channel : ℕ
  rf_channel : ℕ
  clock_channel : ℕ
  trigger_channel : ℕ
  aom_width : ℚ
  rf_pi_pulse_width : ℚ
  aom_response_time : ℚ
  rf_response_time : ℚ
  post_rf_pad : ℚ
  pre_rf_pad : ℚ
  full_cycle_width : Option ℚ
  free_precession_time : ℚ
  n_refocussing_pi_pulses : ℕ
  -- diagnostics retained on the instance
  pi_pulse_start_times : List ℚ
  left_pi_over_2_pulse_start : Option ℚ
  right_pi_over_2_pulse_start : Option ℚ
  rf_start_and_duration : Option (List (ℚ × ℚ))
  clock_period : ℚ
  trigger_width : ℚ
deriving DecidableEq, Repr

/-- `PulseBlasterRamHahnDD.__init__`.  Note: unlike every other stored time
value, `free_precession_time` is assigned without `np.round(., 8)`. -/
def RamHahnDD.init (pb_board_number : ℤ := 1) (aom_channel : ℕ := 0)
    (rf_channel : ℕ := 1) (clock_channel : ℕ := 2) (trigger_channel : ℕ := 3)
    (clock_period : ℚ := 200e-9) (trigger_width : ℚ := 500e-9)
    (rf_pi_pulse_width : ℚ := 1e-6) (aom_width : ℚ := 5e-6)
    (aom_response_time : ℚ := 800e-9) (rf_response_time : ℚ := 200e-9)
    (pre_rf_pad : ℚ := 100e-9) (post_rf_pad : ℚ := 100e-9)
    (free_precession_time : ℚ := 5e-6) (n_refocussing_pi_pulses : ℕ := 0) :
    RamHahnDDState :=
  { pb_board_number := pb_board_number
    aom_channel := aom_channel
    rf_channel := rf_channel
    clock_channel := clock_channel
    trigger_channel := trigger_channel
    aom_width := npRound8 aom_width
    rf_pi_pulse_width := npRound8 rf_pi_pulse_width
    aom_response_time := npRound8 aom_response_time
    rf_response_time := npRound8 rf_response_time
    post_rf_pad := npRound8 post_rf_pad
    pre_rf_pad := npRound8 pre_rf_pad
    full_cycle_width := none
    free_precession_time := free_precession_time
    n_refocussing_pi_pulses := n_refocussing_pi_pulses
    pi_pulse_start_times := []
    left_pi_over_2_pulse_start := none
    right_pi_over_2_pulse_start := none
    rf_start_and_duration := none
    clock_period := npRound8 clock_period
    trigger_width := npRound8 trigger_width }

/-- `PulseBlasterRamHahnDD.raise_for_pulse_width`: fail iff
`free_precession_time < n_refocussing_pi_pulses * rf_pi_pulse_width`. -/
def RamHahnDD.raise_for_pulse_width (s : RamHahnDDState)
    (free_precession_time : ℚ) (n_refocussing_pi_pulses : ℕ) :
    Except PBErr Unit :=
  if free_precession_time <
      (n_refocussing_pi_pulses : ℚ) * s.rf_pi_pulse_width then
    .error .pulseTrainWidthError
  else .ok ()

/-- `PulseBlasterRamHahnDD.compute_rf_pulse_sequence`: the list of
`(rf_start_time, pulse_duration)` tuples and the derived half cycle width. -/
def RamHahnDD.compute_rf_pulse_sequence (s : RamHahnDDState)
    (free_precession_time : ℚ) (n_refocussing_pi_pulses : ℕ) :
    Except PBErr (List (ℚ × ℚ) × ℚ) :=
  match RamHahnDD.raise_for_pulse_width s free_precession_time
      n_refocussing_pi_pulses with
  | .error e => .error e
  | .ok _ =>
    let half_cycle_width :=
      s.aom_width + s.aom_response_time + s.pre_rf_pad
        + s.rf_pi_pulse_width / 2 + free_precession_time
        + s.rf_pi_pulse_width / 2 + s.post_rf_pad
    let left_pi_over_2_pulse_start :=
      s.aom_width + s.aom_response_time + s.pre_rf_pad - s.rf_response_time
    let n_free_precession_segments := n_refocussing_pi_pulses + 1
    let delta_t_between_pi_pulses :=
      free_precession_time / (n_free_precession_segments : ℚ)
    let refocussing_sequence_start_time :=
      left_pi_over_2_pulse_start + s.rf_pi_pulse_width / 2
    let refocussing_pulses :=
      (List.range n_refocussing_pi_pulses).map fun (i : ℕ) =>
        (refocussing_sequence_start_time
           + ((i : ℚ) + 1) * delta_t_between_pi_pulses
           - s.rf_pi_pulse_width / 2,
         s.rf_pi_pulse_width)
    let right_pi_over_2_pulse_start :=
      left_pi_over_2_pulse_start + free_precession_time
        + s.rf_pi_pulse_width / 2
    .ok ((left_pi_over_2_pulse_start, s.rf_pi_pulse_width / 2)
           :: (refocussing_pulses
                ++ [(right_pi_over_2_pulse_start, s.rf_pi_pulse_width / 2)]),
         half_cycle_width)

/-- `PulseBlasterRamHahnDD.program_pulser_state`.  Overrides are tested with
`is not None` (not truthiness).  The `except` block restores
`_prev_free_precession_time` then `_prev_n_refocussing_pi_pulses`; each of
those locals exists only if the matching override was supplied, so a
validation failure with a single override hits `UnboundLocalError` inside
the handler, after whatever restores preceded it. -/
def RamHahnDD.program_pulser_state (s : RamHahnDDState) (d : DriverStatus)
    (free_precession_time : Option ℚ := none)
    (n_refocussing_pi_pulses : Option ℕ := none) :
    RamHahnDDState × Except PBErr (List PBCall × ℤ) :=
  let prevT : Option ℚ :=
    match free_precession_time with
    | some _ => some s.free_precession_time
    | none => none
  let s₁ : RamHahnDDState :=
    match free_precession_time with
    | some t => { s with free_precession_time := npRound8 t }
    | none => s
  let prevN : Option ℕ :=
    match n_refocussing_pi_pulses with
    | some _ => some s₁.n_refocussing_pi_pulses
    | none => none
  let s₂ : RamHahnDDState :=
    match n_refocussing_pi_pulses with
    | some n => { s₁ with n_refocussing_pi_pulses := n }
    | none => s₁
  match RamHahnDD.raise_for_pulse_width s₂ s₂.free_precession_time
      s₂.n_refocussing_pi_pulses with
  | .error e =>
    -- `self.free_precession_time = _prev_free_precession_time`
    (match prevT with
     | none => (s₂, .error (.unboundLocalError "_prev_free_precession_time"))
     | some pt =>
       let s₃ := { s₂ with free_precession_time := pt }
       -- `self.n_refocussing_pi_pulses = _prev_n_refocussing_pi_pulses`
       match prevN with
       | none =>
         (s₃, .error (.unboundLocalError "_prev_n_refocussing_pi_pulses"))
       | some pn =>
         ({ s₃ with n_refocussing_pi_pulses := pn }, .error e))
  | .ok _ =>
    match RamHahnDD.compute_rf_pulse_sequence s₂ s₂.free_precession_time
        s₂.n_refocussing_pi_pulses with
    | .error e => (s₂, .error e)
    | .ok (rf_start_and_duration, half_cycle_width) =>
      let full_cycle_width := half_cycle_width * 2
      let s₃ := { s₂ with
        rf_start_and_duration := some rf_start_and_duration
        full_cycle_width := some full_cycle_width }
      let calls : List PBCall :=
        [.mkPBInd (pyInt (full_cycle_width * 1e9)),
         .on s₃.trigger_channel 0 (pyInt (s₃.trigger_width * 1e9)),
         .makeClock s₃.clock_channel (pyInt (s₃.clock_period * 1e9)),
         .on s₃.aom_channel 0 (pyInt (s₃.aom_width * 1e9))]
        ++ (rf_start_and_duration.map fun td =>
             .on s₃.rf_channel (pyInt (td.1 * 1e9)) (pyInt (td.2 * 1e9)))
        ++ [.on s₃.aom_channel (pyInt (half_cycle_width * 1e9))
              (pyInt (s₃.aom_width * 1e9)),
            .programInf]
      (s₃, runProgramBracket s₃.pb_board_number d calls
            (npRoundInt (full_cycle_width / s₃.clock_period)))

/-! ### Interval predicates -/

/-- Two `(start, duration)` intervals do not overlap: one ends no later than
the other starts. -/
def intervalsNonOverlapping (a b : ℚ × ℚ) : Prop :=
  a.1 + a.2 ≤ b.1 ∨ b.1 + b.2 ≤ a.1

instance (a b : ℚ × ℚ) : Decidable (intervalsNonOverlapping a b) := by
  unfold intervalsNonOverlapping; infer_instance

/-! ### Helper lemmas -/

theorem runProgramBracket_allOk (board : ℤ) (calls : List PBCall) (ret : ℤ) :
    runProgramBracket board DriverStatus.allOk calls ret = .ok (calls, ret) :=
  rfl

/-! ### Theorems for the claims -/

/-- C1: a hold-open instance constructed with its defaults, run against an
all-success driver, never returns the clock-cycle count: after the programming
bracket and the close complete, the return statement's reference to the
undefined name `elf` raises `NameError` (the class also stores no
`clock_period`), so `program_pulser_state` raises instead of returning
`round(cycle_width / clock_period)`. -/
theorem holdAOM_program_pulser_state_raises_nameError :
    HoldAOM.program_pulser_state HoldAOM.init DriverStatus.allOk
      = (HoldAOM.init, .error (.nameError "elf")) := by
  unfold HoldAOM.program_pulser_state
  norm_num [PulseBlaster.openRun, PulseBlaster.closeRun, DriverStatus.allOk,
            PulseBlaster.start_programming, PulseBlaster.stop_programming]

/-- C2: with only the `n_refocussing_pi_pulses` override supplied (a hold of
10 pulses against the default 5 µs free-precession time, which fails the
feasibility check), `program_pulser_state` does not raise the timing
validation error and does not roll back: the handler's first restore hits
the never-assigned local `_prev_free_precession_time`, raising
`UnboundLocalError` and leaving the stored `n_refocussing_pi_pulses`
at the new (rejected) value 10. -/
theorem ramHahnDD_single_override_rollback_failure :
    RamHahnDD.program_pulser_state RamHahnDD.init DriverStatus.allOk
        none (some 10)
      = ({ (RamHahnDD.init : RamHahnDDState) with n_refocussing_pi_pulses := 10 },
         .error (.unboundLocalError "_prev_free_precession_time")) := by
  unfold RamHahnDD.program_pulser_state
  norm_num [RamHahnDD.init, RamHahnDD.raise_for_pulse_width, npRound8, npRoundInt]

/-- C4: when `open` observes a nonzero initialization status it calls the
driver's close before raising; the raised error is `PulseBlasterInitError`
when the close succeeds, and the close's own `PulseBlasterError` (operation
error) when the close fails; the two error forms are distinct, so callers can
tell initialization failure from an operation failure. -/
theorem pulseBlaster_open_failure_closes_then_raises (board : ℤ)
    (d : DriverStatus) (h : d.initStatus ≠ 0) :
    (PulseBlaster.openRun board d).1
        = [.selectBoard board, .initCall, .closeCall] ∧
    (PulseBlaster.openRun board d).2
        = (if d.closeStatus ≠ 0 then Except.error (PBErr.opError d.closeStatus)
           else Except.error (PBErr.initError d.initStatus)) ∧
    ∀ c c' : ℤ, PBErr.initError c ≠ PBErr.opError c' := by
  unfold PulseBlaster.openRun PulseBlaster.closeRun
  rw [if_pos h]
  by_cases hc : d.closeStatus ≠ 0
  · rw [if_pos hc]
    exact ⟨rfl, by rw [if_pos hc], fun c c' h => PBErr.noConfusion h⟩
  · rw [if_neg hc]
    exact ⟨rfl, by rw [if_neg hc], fun c c' h => PBErr.noConfusion h⟩

theorem pulseBlaster_open_failure_closes_then_raises_witness :
    ((⟨1, 2, 0, 0⟩ : DriverStatus).initStatus ≠ 0) ∧
    ((PulseBlaster.openRun 7 ⟨1, 2, 0, 0⟩).1
        = [.selectBoard 7, .initCall, .closeCall] ∧
     (PulseBlaster.openRun 7 ⟨1, 2, 0, 0⟩).2
        = (if (⟨1, 2, 0, 0⟩ : DriverStatus).closeStatus ≠ 0 then
             Except.error (PBErr.opError (⟨1, 2, 0, 0⟩ : DriverStatus).closeStatus)
           else Except.error (PBErr.initError (⟨1, 2, 0, 0⟩ : DriverStatus).initStatus)) ∧
     ∀ c c' : ℤ, PBErr.initError c ≠ PBErr.opError c') :=
  ⟨by decide, pulseBlaster_open_failure_closes_then_raises 7 ⟨1, 2, 0, 0⟩ (by decide)⟩

/-- C6: the pulsed-ODMR width validator fails exactly when
`aom_width + aom_response_time + pre_rf_pad + rf_width + post_rf_pad`
reaches half the full cycle width (`>=`, so equality fails); at the default
parameters the boundary is `rf_width = 9e-6`, which raises, while one
nanosecond below it succeeds. -/
theorem pulsedODMR_raise_for_pulse_width_boundary :
    (∀ (s : PulsedODMRState) (w : ℚ),
      PulsedODMR.raise_for_pulse_width s w = .error .pulseTrainWidthError
        ↔ s.aom_width + s.aom_response_time + s.pre_rf_pad + w + s.post_rf_pad
            ≥ s.full_cycle_width / 2) ∧
    PulsedODMR.raise_for_pulse_width PulsedODMR.init 9e-6
        = .error .pulseTrainWidthError ∧
    PulsedODMR.raise_for_pulse_width PulsedODMR.init (9e-6 - 1e-9) = .ok () := by
  refine ⟨fun s w => ?_, ?_, ?_⟩
  · unfold PulsedODMR.raise_for_pulse_width
    dsimp only
    split
    · next hge => simpa using hge
    · next hlt => simpa using hlt
  · norm_num [PulsedODMR.raise_for_pulse_width, PulsedODMR.init,
              npRound8, npRoundInt]
  · norm_num [PulsedODMR.raise_for_pulse_width, PulsedODMR.init,
              npRound8, npRoundInt]

/-- C8: the CW-ODMR validator fails exactly when the validated `rf_width`
is below 50 ns; programming the default instance with the override
`rf_width = 49e-9` raises the timing validation error and leaves the state
unchanged, while `rf_width = 50e-9` is accepted and programs. -/
theorem cwODMR_min_rf_width :
    (∀ w : ℚ,
      CWODMR.raise_for_pulse_width w = .error .pulseTrainWidthError
        ↔ w < 50e-9) ∧
    CWODMR.program_pulser_state CWODMR.init DriverStatus.allOk (some 49e-9)
      = (CWODMR.init, .error .pulseTrainWidthError) ∧
    (∃ calls k,
      CWODMR.program_pulser_state CWODMR.init DriverStatus.allOk (some 50e-9)
        = ({ (CWODMR.init : CWODMRState) with rf_width := npRound8 50e-9 },
           .ok (calls, k))) := by
  refine ⟨fun w => ?_, ?_, ?_⟩
  · unfold CWODMR.raise_for_pulse_width
    split
    · next hlt => simpa using hlt
    · next hge => simpa using hge
  · unfold CWODMR.program_pulser_state
    norm_num [CWODMR.raise_for_pulse_width, CWODMR.init, npRound8, npRoundInt]
  · unfold CWODMR.program_pulser_state
    norm_num [CWODMR.raise_for_pulse_width, CWODMR.init, npRound8, npRoundInt,
              runProgramBracket_allOk]

/-- C7: on a validated pulsed-ODMR state, `program_pulser_state` returns
`np.round(full_cycle_width / clock_period)` as an integer; at the default
parameters (`full_cycle_width = 30e-6`, `clock_period = 200e-9`) that value is
150; and the conversion rounds rather than truncates (a state whose ratio is
150.6 returns 151 while `int()` truncation would give 150). -/
theorem pulsedODMR_program_returns_rounded_count :
    (∀ s : PulsedODMRState,
      s.aom_width + s.aom_response_time + s.pre_rf_pad + s.rf_width
          + s.post_rf_pad < s.full_cycle_width / 2 →
      ∃ calls, PulsedODMR.program_pulser_state s DriverStatus.allOk none
        = (s, .ok (calls, npRoundInt (s.full_cycle_width / s.clock_period)))) ∧
    (∃ calls,
      PulsedODMR.program_pulser_state PulsedODMR.init DriverStatus.allOk none
        = (PulsedODMR.init, .ok (calls, 150))) ∧
    (∃ calls,
      PulsedODMR.program_pulser_state
          { (PulsedODMR.init : PulsedODMRState) with full_cycle_width := 30.12e-6 }
          DriverStatus.allOk none
        = ({ (PulsedODMR.init : PulsedODMRState) with full_cycle_width := 30.12e-6 },
           .ok (calls, 151))) ∧
    pyInt ((30.12e-6 : ℚ) / 200e-9) = 150 ∧
    npRoundInt ((30.12e-6 : ℚ) / 200e-9) = 151 := by
  refine ⟨fun s h => ?_, ?_, ?_, ?_, ?_⟩
  · unfold PulsedODMR.program_pulser_state PulsedODMR.raise_for_pulse_width
    dsimp only
    rw [if_neg (not_le.mpr h)]
    exact ⟨_, rfl⟩
  · unfold PulsedODMR.program_pulser_state
    norm_num [PulsedODMR.raise_for_pulse_width, PulsedODMR.init,
              npRound8, npRoundInt, runProgramBracket_allOk]
  · unfold PulsedODMR.program_pulser_state
    norm_num [PulsedODMR.raise_for_pulse_width, PulsedODMR.init,
              npRound8, npRoundInt, runProgramBracket_allOk]
  · norm_num [pyInt]
  · norm_num [npRoundInt]

/-- C10: for both CW-ODMR and pulsed-ODMR, the override `rf_width = 0` is
Python-falsy, so `program_pulser_state` behaves exactly as with no override:
same result, stored `rf_width` untouched, and if the stored value passes
validation (as the defaults do) no error is raised for the zero. -/
theorem zero_rf_width_override_is_ignored :
    (∀ (s : CWODMRState) (d : DriverStatus),
      CWODMR.program_pulser_state s d (some 0)
        = CWODMR.program_pulser_state s d none) ∧
    (∀ (p : PulsedODMRState) (d : DriverStatus),
      PulsedODMR.program_pulser_state p d (some 0)
        = PulsedODMR.program_pulser_state p d none) ∧
    (∀ (s : CWODMRState) (d : DriverStatus),
      (CWODMR.program_pulser_state s d (some 0)).1 = s) ∧
    (∀ (p : PulsedODMRState) (d : DriverStatus),
      (PulsedODMR.program_pulser_state p d (some 0)).1 = p) ∧
    (∃ calls k,
      CWODMR.program_pulser_state CWODMR.init DriverStatus.allOk (some 0)
        = (CWODMR.init, .ok (calls, k))) ∧
    (∃ calls k,
      PulsedODMR.program_pulser_state PulsedODMR.init DriverStatus.allOk (some 0)
        = (PulsedODMR.init, .ok (calls, k))) := by
  refine ⟨fun s d => ?_, fun p d => ?_, fun s d => ?_, fun p d => ?_, ?_, ?_⟩
  · unfold CWODMR.program_pulser_state
    norm_num
  · unfold PulsedODMR.program_pulser_state
    norm_num
  · unfold CWODMR.program_pulser_state
    norm_num
    cases h : CWODMR.raise_for_pulse_width s.rf_width <;> simp [h]
  · unfold PulsedODMR.program_pulser_state
    norm_num
    cases h : PulsedODMR.raise_for_pulse_width p p.rf_width <;> simp [h]
  · unfold CWODMR.program_pulser_state
    norm_num [CWODMR.raise_for_pulse_width, CWODMR.init, npRound8, npRoundInt,
              runProgramBracket_allOk]
  · unfold PulsedODMR.program_pulser_state
    norm_num [PulsedODMR.raise_for_pulse_width, PulsedODMR.init,
              npRound8, npRoundInt, runProgramBracket_allOk]

/-- C5 counterexample: constructing a Ramsey/Hahn/DD instance with
`free_precession_time = 6e-9` stores `6e-9` itself, not its 8-decimal
rounding `1e-8` — `__init__` omits `np.round(., 8)` for this one field. -/
theorem ramHahnDD_free_precession_unrounded_at_construction :
    (RamHahnDD.init 1 0 1 2 3 200e-9 500e-9 1e-6 5e-6 800e-9 200e-9 100e-9
        100e-9 6e-9 0).free_precession_time = 6e-9 ∧
    npRound8 6e-9 = 1e-8 ∧ (6e-9 : ℚ) ≠ 1e-8 := by
  refine ⟨rfl, by norm_num [npRound8, npRoundInt], by norm_num⟩

/-- C5 (amended): every time-valued field is stored rounded to 8 decimal
places at construction and on successful override — except
`PulseBlasterRamHahnDD.free_precession_time`, which is stored as given at
construction (it is rounded when overridden via `program_pulser_state`). -/
theorem time_fields_rounding_policy :
    (∀ t₁ t₂ t₃ : ℚ,
      (CWODMR.init 1 0 1 2 3 t₁ t₂ t₃).rf_width = npRound8 t₁ ∧
      (CWODMR.init 1 0 1 2 3 t₁ t₂ t₃).clock_period = npRound8 t₂ ∧
      (CWODMR.init 1 0 1 2 3 t₁ t₂ t₃).trigger_width = npRound8 t₃) ∧
    (∀ t : ℚ, (HoldAOM.init 1 0 t).cycle_width = npRound8 t) ∧
    (∀ t₁ t₂ t₃ t₄ t₅ t₆ t₇ t₈ t₉ : ℚ,
      (PulsedODMR.init 1 0 1 2 3 t₁ t₂ t₃ t₄ t₅ t₆ t₇ t₈ t₉).clock_period
          = npRound8 t₁ ∧
      (PulsedODMR.init 1 0 1 2 3 t₁ t₂ t₃ t₄ t₅ t₆ t₇ t₈ t₉).trigger_width
          = npRound8 t₂ ∧
      (PulsedODMR.init 1 0 1 2 3 t₁ t₂ t₃ t₄ t₅ t₆ t₇ t₈ t₉).rf_width
          = npRound8 t₃ ∧
      (PulsedODMR.init 1 0 1 2 3 t₁ t₂ t₃ t₄ t₅ t₆ t₇ t₈ t₉).aom_width
          = npRound8 t₄ ∧
      (PulsedODMR.init 1 0 1 2 3 t₁ t₂ t₃ t₄ t₅ t₆ t₇ t₈ t₉).aom_response_time
          = npRound8 t₅ ∧
      (PulsedODMR.init 1 0 1 2 3 t₁ t₂ t₃ t₄ t₅ t₆ t₇ t₈ t₉).rf_response_time
          = npRound8 t₆ ∧
      (PulsedODMR.init 1 0 1 2 3 t₁ t₂ t₃ t₄ t₅ t₆ t₇ t₈ t₉).pre_rf_pad
          = npRound8 t₇ ∧
      (PulsedODMR.init 1 0 1 2 3 t₁ t₂ t₃ t₄ t₅ t₆ t₇ t₈ t₉).post_rf_pad
          = npRound8 t₈ ∧
      (PulsedODMR.init 1 0 1 2 3 t₁ t₂ t₃ t₄ t₅ t₆ t₇ t₈ t₉).full_cycle_width
          = npRound8 t₉) ∧
    (∀ t₁ t₂ t₃ t₄ t₅ t₆ t₇ t₈ t₉ : ℚ, ∀ m : ℕ,
      (RamHahnDD.init 1 0 1 2 3 t₁ t₂ t₃ t₄ t₅ t₆ t₇ t₈ t₉ m).clock_period
          = npRound8 t₁ ∧
      (RamHahnDD.init 1 0 1 2 3 t₁ t₂ t₃ t₄ t₅ t₆ t₇ t₈ t₉ m).trigger_width
          = npRound8 t₂ ∧
      (RamHahnDD.init 1 0 1 2 3 t₁ t₂ t₃ t₄ t₅ t₆ t₇ t₈ t₉ m).rf_pi_pulse_width
          = npRound8 t₃ ∧
      (RamHahnDD.init 1 0 1 2 3 t₁ t₂ t₃ t₄ t₅ t₆ t₇ t₈ t₉ m).aom_width
          = npRound8 t₄ ∧
      (RamHahnDD.init 1 0 1 2 3 t₁ t₂ t₃ t₄ t₅ t₆ t₇ t₈ t₉ m).aom_response_time
          = npRound8 t₅ ∧
      (RamHahnDD.init 1 0 1 2 3 t₁ t₂ t₃ t₄ t₅ t₆ t₇ t₈ t₉ m).rf_response_time
          = npRound8 t₆ ∧
      (RamHahnDD.init 1 0 1 2 3 t₁ t₂ t₃ t₄ t₅ t₆ t₇ t₈ t₉ m).pre_rf_pad
          = npRound8 t₇ ∧
      (RamHahnDD.init 1 0 1 2 3 t₁ t₂ t₃ t₄ t₅ t₆ t₇ t₈ t₉ m).post_rf_pad
          = npRound8 t₈ ∧
      (RamHahnDD.init 1 0 1 2 3 t₁ t₂ t₃ t₄ t₅ t₆ t₇ t₈ t₉ m).free_precession_time
          = t₉) ∧
    (∀ (s : RamHahnDDState) (d : DriverStatus) (u : ℚ),
      ¬ (npRound8 u < (s.n_refocussing_pi_pulses : ℚ) * s.rf_pi_pulse_width) →
      (RamHahnDD.program_pulser_state s d (some u) none).1.free_precession_time
        = npRound8 u) ∧
    (∀ (s : CWODMRState) (d : DriverStatus) (u : ℚ), u ≠ 0 → ¬ (u < 50e-9) →
      (CWODMR.program_pulser_state s d (some u)).1.rf_width = npRound8 u) ∧
    (∀ (p : PulsedODMRState) (d : DriverStatus) (u : ℚ), u ≠ 0 →
      ¬ (p.aom_width + p.aom_response_time + p.pre_rf_pad + u + p.post_rf_pad
           ≥ p.full_cycle_width / 2) →
      (PulsedODMR.program_pulser_state p d (some u)).1.rf_width = npRound8 u) := by
  refine ⟨fun t₁ t₂ t₃ => ⟨rfl, rfl, rfl⟩, fun t => rfl,
          fun t₁ t₂ t₃ t₄ t₅ t₆ t₇ t₈ t₉ =>
            ⟨rfl, rfl, rfl, rfl, rfl, rfl, rfl, rfl, rfl⟩,
          fun t₁ t₂ t₃ t₄ t₅ t₆ t₇ t₈ t₉ m =>
            ⟨rfl, rfl, rfl, rfl, rfl, rfl, rfl, rfl, rfl⟩,
          fun s d u hu => ?_, fun s d u hu0 hu => ?_, fun p d u hu0 hu => ?_⟩
  · unfold RamHahnDD.program_pulser_state RamHahnDD.raise_for_pulse_width
    dsimp only
    rw [if_neg hu]
    cases hc : RamHahnDD.compute_rf_pulse_sequence
        { s with free_precession_time := npRound8 u }
        (npRound8 u) s.n_refocussing_pi_pulses with
    | error e => simp
    | ok v => cases v with
      | mk l half => simp
  · unfold CWODMR.program_pulser_state CWODMR.raise_for_pulse_width
    dsimp only
    rw [if_pos hu0, if_neg hu]
  · unfold PulsedODMR.program_pulser_state PulsedODMR.raise_for_pulse_width
    dsimp only
    rw [if_pos hu0, if_neg hu]

/-! ### The RF pulse list of `compute_rf_pulse_sequence`, characterized -/

/-- The RF `(start, duration)` list `compute_rf_pulse_sequence` produces, with
each refocusing start simplified to `L + (i+1) * (T / (n+1))`:  `L` is the
left pi/2 start, `w` the pi pulse width, `T` the free precession time. -/
def rfPulseList (L w T : ℚ) (n : ℕ) : List (ℚ × ℚ) :=
  (L, w / 2)
    :: (((List.range n).map fun (i : ℕ) =>
          (L + ((i : ℚ) + 1) * (T / ((n : ℚ) + 1)), w))
        ++ [(L + T + w / 2, w / 2)])

/-- On inputs passing the feasibility check, `compute_rf_pulse_sequence`
returns exactly `rfPulseList` of the left pi/2 start together with the derived
half cycle width. -/
theorem compute_rf_pulse_sequence_eq (s : RamHahnDDState) (T : ℚ) (n : ℕ)
    (h : ¬ (T < (n : ℚ) * s.rf_pi_pulse_width)) :
    RamHahnDD.compute_rf_pulse_sequence s T n
      = .ok (rfPulseList
               (s.aom_width + s.aom_response_time + s.pre_rf_pad
                 - s.rf_response_time)
               s.rf_pi_pulse_width T n,
             s.aom_width + s.aom_response_time + s.pre_rf_pad
               + s.rf_pi_pulse_width / 2 + T + s.rf_pi_pulse_width / 2
               + s.post_rf_pad) := by
  unfold RamHahnDD.compute_rf_pulse_sequence RamHahnDD.raise_for_pulse_width
  rw [if_neg h]
  dsimp only
  unfold rfPulseList
  refine congrArg Except.ok (Prod.ext ?_ rfl)
  refine congrArg₂ List.cons rfl (congrArg₂ _ ?_ rfl)
  refine List.map_congr_left fun i hi => Prod.ext ?_ rfl
  push_cast
  ring

theorem rfPulseList_length (L w T : ℚ) (n : ℕ) :
    (rfPulseList L w T n).length = n + 2 := by
  simp [rfPulseList]

/-- The starts of `rfPulseList` are strictly increasing whenever the pulse
width is positive and the feasibility constraint `n·w ≤ T` holds. -/
theorem rfPulseList_sorted (L w T : ℚ) (n : ℕ) (hw : 0 < w)
    (h : (n : ℚ) * w ≤ T) :
    (rfPulseList L w T n).Pairwise (fun a b => a.1 < b.1) := by
  have hq : (0 : ℚ) < (n : ℚ) + 1 := by positivity
  have hqD : ((n : ℚ) + 1) * (T / ((n : ℚ) + 1)) = T :=
    mul_div_cancel₀ T (ne_of_gt hq)
  have hT0 : (0 : ℚ) ≤ T := le_trans (by positivity) h
  have hD0 : (0 : ℚ) ≤ T / ((n : ℚ) + 1) := div_nonneg hT0 hq.le
  have hnD : (n : ℚ) * (T / ((n : ℚ) + 1)) + T / ((n : ℚ) + 1) = T := by
    have hr : (n : ℚ) * (T / ((n : ℚ) + 1)) + T / ((n : ℚ) + 1)
        = ((n : ℚ) + 1) * (T / ((n : ℚ) + 1)) := by ring
    rw [hr, hqD]
  have hDpos : n ≠ 0 → 0 < T / ((n : ℚ) + 1) := by
    intro hn
    have hn1 : (1 : ℚ) ≤ (n : ℚ) := by
      exact_mod_cast Nat.one_le_iff_ne_zero.mpr hn
    have h1 : (1 : ℚ) * w ≤ (n : ℚ) * w := mul_le_mul_of_nonneg_right hn1 hw.le
    have hTpos : (0 : ℚ) < T := by linarith
    exact div_pos hTpos hq
  unfold rfPulseList
  rw [List.pairwise_cons]
  refine ⟨?_, ?_⟩
  · intro x hx
    simp only [List.mem_append, List.mem_map, List.mem_range,
               List.mem_singleton] at hx
    rcases hx with ⟨i, hi, rfl⟩ | rfl
    · have hD := hDpos (Nat.not_eq_zero_of_lt hi)
      have hi1 : (0 : ℚ) < (i : ℚ) + 1 := by positivity
      have h2 := mul_pos hi1 hD
      dsimp only
      linarith
    · dsimp only
      linarith
  · rw [List.pairwise_append]
    refine ⟨?_, List.pairwise_singleton _ _, ?_⟩
    · rw [List.pairwise_map]
      refine (List.pairwise_lt_range n).imp_of_mem ?_
      intro i j him hjm hij
      simp only [List.mem_range] at him hjm
      have hD := hDpos (Nat.not_eq_zero_of_lt hjm)
      have hij1 : (i : ℚ) + 1 < (j : ℚ) + 1 := by
        exact_mod_cast Nat.succ_lt_succ hij
      have h2 := mul_lt_mul_of_pos_right hij1 hD
      dsimp only
      linarith
    · intro x hx y hy
      simp only [List.mem_map, List.mem_range] at hx
      simp only [List.mem_singleton] at hy
      rcases hx with ⟨i, hi, rfl⟩
      subst hy
      have hi1 : (i : ℚ) + 1 ≤ (n : ℚ) := by
        exact_mod_cast Nat.succ_le_of_lt hi
      have h2 := mul_le_mul_of_nonneg_right hi1 hD0
      dsimp only
      linarith

/-- The intervals of `rfPulseList` are pairwise non-overlapping when, beyond
the code's feasibility constraint, either there is at most one refocusing
pulse or `(n+1)·w ≤ T`. -/
theorem rfPulseList_disjoint (L w T : ℚ) (n : ℕ) (hw : 0 < w)
    (h : (n : ℚ) * w ≤ T)
    (hd : n ≤ 1 ∨ ((n : ℚ) + 1) * w ≤ T) :
    (rfPulseList L w T n).Pairwise intervalsNonOverlapping := by
  have hq : (0 : ℚ) < (n : ℚ) + 1 := by positivity
  have hqD : ((n : ℚ) + 1) * (T / ((n : ℚ) + 1)) = T :=
    mul_div_cancel₀ T (ne_of_gt hq)
  have hT0 : (0 : ℚ) ≤ T := le_trans (by positivity) h
  have hD0 : (0 : ℚ) ≤ T / ((n : ℚ) + 1) := div_nonneg hT0 hq.le
  have hnD : (n : ℚ) * (T / ((n : ℚ) + 1)) + T / ((n : ℚ) + 1) = T := by
    have hr : (n : ℚ) * (T / ((n : ℚ) + 1)) + T / ((n : ℚ) + 1)
        = ((n : ℚ) + 1) * (T / ((n : ℚ) + 1)) := by ring
    rw [hr, hqD]
  have hDw2 : ∀ i : ℕ, i < n → w / 2 ≤ T / ((n : ℚ) + 1) := by
    intro i hi
    rcases hd with hd | hd
    · have hn1 : n = 1 :=
        le_antisymm hd (Nat.one_le_iff_ne_zero.mpr (Nat.not_eq_zero_of_lt hi))
      have hcast : (n : ℚ) = 1 := by exact_mod_cast hn1
      rw [hcast] at h ⊢
      linarith
    · have hwD : w ≤ T / ((n : ℚ) + 1) :=
        (mul_le_mul_left hq).mp (hd.trans_eq hqD.symm)
      linarith
  unfold rfPulseList
  rw [List.pairwise_cons]
  refine ⟨?_, ?_⟩
  · intro x hx
    simp only [List.mem_append, List.mem_map, List.mem_range,
               List.mem_singleton] at hx
    unfold intervalsNonOverlapping
    rcases hx with ⟨i, hi, rfl⟩ | rfl
    · left
      have h1 : (1 : ℚ) ≤ (i : ℚ) + 1 := by
        have := Nat.cast_nonneg (α := ℚ) i
        linarith
      have h2 := mul_le_mul_of_nonneg_right h1 hD0
      have h3 := hDw2 i hi
      dsimp only
      linarith
    · left
      dsimp only
      linarith
  · rw [List.pairwise_append]
    refine ⟨?_, List.pairwise_singleton _ _, ?_⟩
    · rw [List.pairwise_map]
      refine (List.pairwise_lt_range n).imp_of_mem ?_
      intro i j him hjm hij
      simp only [List.mem_range] at him hjm
      have hn2 : 2 ≤ n := by omega
      have hwD : w ≤ T / ((n : ℚ) + 1) := by
        rcases hd with hd | hd
        · exact absurd hn2 (by omega)
        · exact (mul_le_mul_left hq).mp (hd.trans_eq hqD.symm)
      have hij1 : (i : ℚ) + 1 ≤ (j : ℚ) := by
        exact_mod_cast Nat.succ_le_of_lt hij
      have h2 := mul_le_mul_of_nonneg_right hij1 hD0
      have h4 : ((j : ℚ) + 1) * (T / ((n : ℚ) + 1))
          = (j : ℚ) * (T / ((n : ℚ) + 1)) + T / ((n : ℚ) + 1) := by ring
      unfold intervalsNonOverlapping
      left
      dsimp only
      linarith
    · intro x hx y hy
      simp only [List.mem_map, List.mem_range] at hx
      simp only [List.mem_singleton] at hy
      rcases hx with ⟨i, hi, rfl⟩
      subst hy
      have hi1 : (i : ℚ) + 1 ≤ (n : ℚ) := by
        exact_mod_cast Nat.succ_le_of_lt hi
      have h2 := mul_le_mul_of_nonneg_right hi1 hD0
      have h3 := hDw2 i hi
      unfold intervalsNonOverlapping
      left
      dsimp only
      linarith

/-- C3 counterexample: at the default parameters with `n = 2` refocusing
pulses and `free_precession_time = 2e-6` the code's feasibility check passes
(`2e-6 = 2 × 1e-6`), and `compute_rf_pulse_sequence` returns its four
intervals, but they are NOT pairwise non-overlapping: the two full pi pulses,
spaced `2e-6/3` apart but `1e-6` wide, overlap. -/
theorem ramHahnDD_feasibility_check_allows_overlap :
    RamHahnDD.raise_for_pulse_width RamHahnDD.init 2e-6 2 = .ok () ∧
    ∃ l half,
      RamHahnDD.compute_rf_pulse_sequence RamHahnDD.init 2e-6 2
          = .ok (l, half) ∧
      l.length = 2 + 2 ∧
      ¬ l.Pairwise intervalsNonOverlapping := by
  constructor
  · norm_num [RamHahnDD.raise_for_pulse_width, RamHahnDD.init,
              npRound8, npRoundInt]
  · refine ⟨_, _,
      compute_rf_pulse_sequence_eq RamHahnDD.init 2e-6 2
        (by norm_num [RamHahnDD.init, npRound8, npRoundInt]),
      rfPulseList_length _ _ _ _, ?_⟩
    intro hp
    unfold rfPulseList at hp
    rw [show List.range 2 = [0, 1] by rfl] at hp
    simp only [List.map_cons, List.map_nil, List.cons_append,
               List.nil_append] at hp
    have h1 := (List.pairwise_cons.mp hp).2
    have h2 := (List.pairwise_cons.mp h1).1 _ (List.mem_cons_self _ _)
    norm_num [intervalsNonOverlapping, RamHahnDD.init, npRound8,
              npRoundInt] at h2

/-- C3 (amended): on every parameter set with a positive pi pulse width that
passes the feasibility check `n·w ≤ T`, `compute_rf_pulse_sequence` returns
exactly `n + 2` RF intervals, strictly ordered by start time; they are
pairwise non-overlapping provided additionally `n ≤ 1` or `(n+1)·w ≤ T` —
the code's check alone does not ensure this for `n ≥ 2` (see the
counterexample). -/
theorem ramHahnDD_compute_count_order_overlap (s : RamHahnDDState) (T : ℚ)
    (n : ℕ) (hw : 0 < s.rf_pi_pulse_width)
    (h : (n : ℚ) * s.rf_pi_pulse_width ≤ T) :
    ∃ l half,
      RamHahnDD.compute_rf_pulse_sequence s T n = .ok (l, half) ∧
      l.length = n + 2 ∧
      l.Pairwise (fun a b => a.1 < b.1) ∧
      ((n ≤ 1 ∨ ((n : ℚ) + 1) * s.rf_pi_pulse_width ≤ T) →
        l.Pairwise intervalsNonOverlapping) :=
  ⟨_, _, compute_rf_pulse_sequence_eq s T n (not_lt.mpr h),
   rfPulseList_length _ _ _ _,
   rfPulseList_sorted _ _ _ _ hw h,
   fun hd => rfPulseList_disjoint _ _ _ _ hw h hd⟩

theorem ramHahnDD_compute_count_order_overlap_witness :
    (0 < (RamHahnDD.init : RamHahnDDState).rf_pi_pulse_width) ∧
    (((2 : ℕ) : ℚ) * (RamHahnDD.init : RamHahnDDState).rf_pi_pulse_width
        ≤ 4e-6) ∧
    ∃ l half,
      RamHahnDD.compute_rf_pulse_sequence RamHahnDD.init 4e-6 2
          = .ok (l, half) ∧
      l.length = 2 + 2 ∧
      l.Pairwise (fun a b => a.1 < b.1) ∧
      ((2 ≤ 1 ∨ (((2 : ℕ) : ℚ) + 1)
            * (RamHahnDD.init : RamHahnDDState).rf_pi_pulse_width ≤ 4e-6) →
        l.Pairwise intervalsNonOverlapping) :=
  ⟨by norm_num [RamHahnDD.init, npRound8, npRoundInt],
   by norm_num [RamHahnDD.init, npRound8, npRoundInt],
   ramHahnDD_compute_count_order_overlap RamHahnDD.init 4e-6 2
     (by norm_num [RamHahnDD.init, npRound8, npRoundInt])
     (by norm_num [RamHahnDD.init, npRound8, npRoundInt])⟩

/-- C9: on every validated parameter set, `compute_rf_pulse_sequence` returns
the derived half cycle width
`aom_width + aom_response_time + pre_rf_pad + w/2 + T + w/2 + post_rf_pad`,
a first tuple starting at
`t0 = aom_width + aom_response_time + pre_rf_pad − rf_response_time` with
duration `w/2`, the `n` refocusing pulses of duration `w` each starting at
`boundary − w/2` where the boundaries `t0 + w/2 + (i+1)·T/(n+1)` are the
`n+1` equally spaced subdivision points of the free precession time, and a
last tuple starting at `t0 + T + w/2` with duration `w/2`. -/
theorem ramHahnDD_compute_matches_spec_formulas (s : RamHahnDDState) (T : ℚ)
    (n : ℕ) (h : (n : ℚ) * s.rf_pi_pulse_width ≤ T) :
    RamHahnDD.compute_rf_pulse_sequence s T n = .ok (
      (s.aom_width + s.aom_response_time + s.pre_rf_pad - s.rf_response_time,
       s.rf_pi_pulse_width / 2)
        :: (((List.range n).map fun (i : ℕ) =>
              (s.aom_width + s.aom_response_time + s.pre_rf_pad
                 - s.rf_response_time + s.rf_pi_pulse_width / 2
                 + ((i : ℚ) + 1) * (T / ((n : ℚ) + 1))
                 - s.rf_pi_pulse_width / 2,
               s.rf_pi_pulse_width))
            ++ [(s.aom_width + s.aom_response_time + s.pre_rf_pad
                   - s.rf_response_time + T + s.rf_pi_pulse_width / 2,
                 s.rf_pi_pulse_width / 2)]),
      s.aom_width + s.aom_response_time + s.pre_rf_pad
        + s.rf_pi_pulse_width / 2 + T + s.rf_pi_pulse_width / 2
        + s.post_rf_pad) := by
  rw [compute_rf_pulse_sequence_eq s T n (not_lt.mpr h)]
  unfold rfPulseList
  refine congrArg Except.ok (Prod.ext ?_ rfl)
  refine congrArg₂ List.cons rfl (congrArg₂ _ ?_ rfl)
  refine List.map_congr_left fun i hi => Prod.ext ?_ rfl
  ring

theorem ramHahnDD_compute_matches_spec_formulas_witness :
    (((2 : ℕ) : ℚ) * (RamHahnDD.init : RamHahnDDState).rf_pi_pulse_width
        ≤ 5e-6) ∧
    RamHahnDD.compute_rf_pulse_sequence RamHahnDD.init 5e-6 2 = .ok (
      ((RamHahnDD.init : RamHahnDDState).aom_width
         + (RamHahnDD.init : RamHahnDDState).aom_response_time
         + (RamHahnDD.init : RamHahnDDState).pre_rf_pad
         - (RamHahnDD.init : RamHahnDDState).rf_response_time,
       (RamHahnDD.init : RamHahnDDState).rf_pi_pulse_width / 2)
        :: (((List.range 2).map fun (i : ℕ) =>
              ((RamHahnDD.init : RamHahnDDState).aom_width
                 + (RamHahnDD.init : RamHahnDDState).aom_response_time
                 + (RamHahnDD.init : RamHahnDDState).pre_rf_pad
                 - (RamHahnDD.init : RamHahnDDState).rf_response_time
                 + (RamHahnDD.init : RamHahnDDState).rf_pi_pulse_width / 2
                 + ((i : ℚ) + 1) * (5e-6 / (((2 : ℕ) : ℚ) + 1))
                 - (RamHahnDD.init : RamHahnDDState).rf_pi_pulse_width / 2,
               (RamHahnDD.init : RamHahnDDState).rf_pi_pulse_width))
            ++ [((RamHahnDD.init : RamHahnDDState).aom_width
                   + (RamHahnDD.init : RamHahnDDState).aom_response_time
                   + (RamHahnDD.init : RamHahnDDState).pre_rf_pad
                   - (RamHahnDD.init : RamHahnDDState).rf_response_time
                   + 5e-6
                   + (RamHahnDD.init : RamHahnDDState).rf_pi_pulse_width / 2,
                 (RamHahnDD.init : RamHahnDDState).rf_pi_pulse_width / 2)]),
      (RamHahnDD.init : RamHahnDDState).aom_width
        + (RamHahnDD.init : RamHahnDDState).aom_response_time
        + (RamHahnDD.init : RamHahnDDState).pre_rf_pad
        + (RamHahnDD.init : RamHahnDDState).rf_pi_pulse_width / 2 + 5e-6
        + (RamHahnDD.init : RamHahnDDState).rf_pi_pulse_width / 2
        + (RamHahnDD.init : RamHahnDDState).post_rf_pad) :=
  ⟨by norm_num [RamHahnDD.init, npRound8, npRoundInt],
   ramHahnDD_compute_matches_spec_formulas RamHahnDD.init 5e-6 2
     (by norm_num [RamHahnDD.init, npRound8, npRoundInt])⟩

end Qt3Utils
